import Mathlib

/-!
Verification of the led_strip firmware's control logic: a shallow embedding
of the WiFi connectivity supervisor (wifi_manager.c / led_strip_custom.c),
the OTA update orchestrator (ota_manager.c / led_strip_custom.c), the
status-color table (led_control.h / led_strip_custom.c), and the boot-time
rollback guard (app_main in led_strip_custom.c), together with theorems
about the properties the design promises.
-/

namespace LedStrip

/-- The BLUE red component from led_control.h / led_strip_custom.c. -/
def BLUE_R : Nat := 184

/-- The BLUE green component. -/
def BLUE_G : Nat := 179

/-- The BLUE blue component. -/
def BLUE_B : Nat := 44

/-- The RED red component. -/
def RED_R : Nat := 184

/-- The RED green component. -/
def RED_G : Nat := 44

/-- The RED blue component. -/
def RED_B : Nat := 181

/-- The GREEN red component. -/
def GREEN_R : Nat := 0

/-- The GREEN green component. -/
def GREEN_G : Nat := 245

/-- The GREEN blue component. -/
def GREEN_B : Nat := 210

/-- The ORANGE red component. -/
def ORANGE_R : Nat := 0

/-- The ORANGE green component. -/
def ORANGE_G : Nat := 245

/-- The ORANGE blue component. -/
def ORANGE_B : Nat := 210

/-- The RGB triple pushed by led_set_color_blue (update-in-progress). -/
def blueColor : Nat × Nat × Nat := (BLUE_R, BLUE_G, BLUE_B)

/-- The RGB triple pushed by led_set_color_red (error / failed / aborted). -/
def redColor : Nat × Nat × Nat := (RED_R, RED_G, RED_B)

/-- The RGB triple pushed by led_set_color_green (success). -/
def greenColor : Nat × Nat × Nat := (GREEN_R, GREEN_G, GREEN_B)

/-- The RGB triple pushed by led_set_color_orange (connecting / retrying). -/
def orangeColor : Nat × Nat × Nat := (ORANGE_R, ORANGE_G, ORANGE_B)

/-- The retry cap MAXIMUM_RETRY, defined as 5 in wifi_manager.c and
led_strip_custom.c. -/
def MAXIMUM_RETRY : Nat := 5

/-- Events dispatched to the WiFi event handler: WIFI_EVENT_STA_START,
WIFI_EVENT_STA_DISCONNECTED, IP_EVENT_STA_GOT_IP. -/
inductive WifiEvent
  | staStart
  | staDisconnected
  | gotIp
  deriving DecidableEq, Repr

/-- Externally visible actions the WiFi event handler performs:
calling esp_wifi_connect, pushing a color to the LED strip, and setting
the WIFI_CONNECTED_BIT of the event group. -/
inductive WifiAction
  | wifiConnect
  | setLed (c : Nat × Nat × Nat)
  | setConnectedBit
  deriving DecidableEq, Repr

/-- The shared mutable state the handler reads and writes: s_retry_num and
the connected bit of s_wifi_event_group. -/
structure WifiState where
  retryNum : Nat
  connected : Bool
  deriving DecidableEq, Repr

/-- The WiFi event handler of wifi_manager.c lines 68-94, identical to the
one in led_strip_custom.c lines 252-292: on STA_START it issues a connect;
on STA_DISCONNECTED it reconnects, increments s_retry_num and shows orange
while s_retry_num is less than MAXIMUM_RETRY, and otherwise only shows red;
on GOT_IP it resets s_retry_num to 0, sets the connected bit and shows
green. Returns the new state and the list of actions performed. -/
def event_handler (s : WifiState) (e : WifiEvent) : WifiState × List WifiAction :=
  match e with
  | WifiEvent.staStart => (s, [WifiAction.wifiConnect])
  | WifiEvent.staDisconnected =>
      if s.retryNum < MAXIMUM_RETRY then
        ({ s with retryNum := s.retryNum + 1 },
         [WifiAction.wifiConnect, WifiAction.setLed orangeColor])
      else
        (s, [WifiAction.setLed redColor])
  | WifiEvent.gotIp =>
      ({ retryNum := 0, connected := true },
       [WifiAction.setConnectedBit, WifiAction.setLed greenColor])

/-- Delivering a sequence of events to the WiFi event handler, accumulating
the actions performed. -/
def runEvents : WifiState → List WifiEvent → WifiState × List WifiAction
  | s, [] => (s, [])
  | s, e :: es =>
      let p := event_handler s e
      let q := runEvents p.1 es
      (q.1, p.2 ++ q.2)

/-- Error results of the embedded ESP calls: ESP_OK, ESP_FAIL,
ESP_ERR_INVALID_ARG, ESP_ERR_HTTPS_OTA_IN_PROGRESS,
ESP_ERR_OTA_VALIDATE_FAILED. -/
inductive EspErr
  | ok
  | fail
  | invalidArg
  | httpsOtaInProgress
  | otaValidateFailed
  deriving DecidableEq, Repr

/-- The esp_app_desc_t fields the validation logic reads: the fixed-size
version byte field and the secure_version counter. -/
structure EspAppDesc where
  version : List Nat
  secure_version : Nat
  deriving DecidableEq, Repr

/-- Build-time configuration of the validation gates:
CONFIG_EXAMPLE_SKIP_VERSION_CHECK, CONFIG_BOOTLOADER_APP_ANTI_ROLLBACK,
and the hardware secure-version floor read by esp_efuse_read_secure_version. -/
structure OtaConfig where
  skipVersionCheck : Bool
  antiRollback : Bool
  hwSecVersion : Nat
  deriving DecidableEq, Repr

/-- Reads performed by ota_validate_image_header after the null check:
reading the running partition description, dereferencing the new
descriptor, and reading the efuse secure version. -/
inductive ValidateStep
  | readRunningDesc
  | derefNewDesc
  | readEfuse
  deriving DecidableEq, Repr

/-- The header validation of ota_manager.c lines 127-158, identical to
validate_image_header in led_strip_custom.c lines 491-529: a null
descriptor returns ESP_ERR_INVALID_ARG at once; otherwise the running
partition description is read and the new descriptor dereferenced; unless
the skip flag is set, a version field byte-for-byte equal to the running
one (memcmp over the whole fixed-size field) returns ESP_FAIL; if
anti-rollback is configured, a secure_version below the efuse floor
returns ESP_FAIL; otherwise ESP_OK. The second component records which
reads were performed. -/
def ota_validate_image_header (cfg : OtaConfig) (running : EspAppDesc)
    (new_app_info : Option EspAppDesc) : EspErr × List ValidateStep :=
  match new_app_info with
  | none => (EspErr.invalidArg, [])
  | some info =>
      if cfg.skipVersionCheck = false ∧ info.version = running.version then
        (EspErr.fail, [ValidateStep.readRunningDesc, ValidateStep.derefNewDesc])
      else if cfg.antiRollback = true ∧ info.secure_version < cfg.hwSecVersion then
        (EspErr.fail,
         [ValidateStep.readRunningDesc, ValidateStep.derefNewDesc,
          ValidateStep.readEfuse])
      else
        (EspErr.ok,
         [ValidateStep.readRunningDesc, ValidateStep.derefNewDesc] ++
           if cfg.antiRollback = true then [ValidateStep.readEfuse] else [])

/-- Externally visible actions of the OTA task: pushing red or green to the
strip, calling esp_https_ota_finish, calling esp_https_ota_abort, calling
esp_restart, and deleting the task with vTaskDelete. -/
inductive OtaAction
  | setLedRed
  | setLedGreen
  | callFinish
  | callAbort
  | restart
  | taskDelete
  deriving DecidableEq, Repr

/-- The environment responses one execution of the OTA task observes: the
build configuration, the running image descriptor, the results of
esp_https_ota_begin and esp_https_ota_get_img_desc, the fetched remote
descriptor, the first non-IN_PROGRESS result of esp_https_ota_perform
(the value of err when the download loop exits), the answer of
esp_https_ota_is_complete_data_received, and the result of
esp_https_ota_finish. -/
structure OtaEnv where
  cfg : OtaConfig
  running : EspAppDesc
  beginErr : EspErr
  getImgDescErr : EspErr
  appDesc : EspAppDesc
  performExit : EspErr
  isCompleteData : Bool
  finishErr : EspErr
  deriving DecidableEq, Repr

/-- The actions of the ota_end cleanup label: esp_https_ota_abort, red
status, vTaskDelete. -/
def otaEndActions : List OtaAction :=
  [OtaAction.callAbort, OtaAction.setLedRed, OtaAction.taskDelete]

/-- The OTA task of ota_manager.c lines 177-253, identical to
advanced_ota_task in led_strip_custom.c lines 548-646: a Begin failure
shows red and deletes the task; a descriptor-fetch or header-validation
failure jumps to ota_end (abort, red, delete); after the download loop, an
incomplete transfer shows red and falls through to ota_end; otherwise
finish is called, and on a clean loop exit plus finish success the task
shows green and restarts, while any finish-phase failure shows red and
deletes the task. Returns the list of actions performed. -/
def ota_task (env : OtaEnv) : List OtaAction :=
  if env.beginErr ≠ EspErr.ok then
    [OtaAction.setLedRed, OtaAction.taskDelete]
  else if env.getImgDescErr ≠ EspErr.ok then
    otaEndActions
  else if (ota_validate_image_header env.cfg env.running (some env.appDesc)).1 ≠ EspErr.ok then
    otaEndActions
  else if env.isCompleteData ≠ true then
    OtaAction.setLedRed :: otaEndActions
  else if env.performExit = EspErr.ok ∧ env.finishErr = EspErr.ok then
    [OtaAction.callFinish, OtaAction.setLedGreen, OtaAction.restart]
  else
    [OtaAction.callFinish, OtaAction.setLedRed, OtaAction.taskDelete]

/-- The persisted OTA image states read by esp_ota_get_state_partition. -/
inductive OtaImgState
  | stNew
  | pendingVerify
  | valid
  | invalid
  | aborted
  | undefined
  deriving DecidableEq, Repr

/-- Actions the rollback-guard section of app_main can take: calling
esp_ota_mark_app_valid_cancel_rollback, or restarting the device. -/
inductive RollbackAction
  | confirmValid
  | restartDevice
  deriving DecidableEq, Repr

/-- What the rollback-guard section of app_main observes: whether
CONFIG_BOOTLOADER_APP_ROLLBACK_ENABLE is defined, whether
esp_ota_get_state_partition returned ESP_OK, the state it read, and the
result of the confirmation call. -/
structure RollbackEnv where
  rollbackEnabled : Bool
  getStateOk : Bool
  otaState : OtaImgState
  confirmOk : Bool
  deriving DecidableEq, Repr

/-- The rollback-guard section of app_main, led_strip_custom.c lines
762-803: when rollback support is compiled in and the partition state is
read successfully, a PENDING_VERIFY state triggers exactly one call to
esp_ota_mark_app_valid_cancel_rollback, whose result is only logged
(success or failure); every other state is only logged. No branch
restarts the device. Returns the list of actions performed. -/
def rollback_guard (env : RollbackEnv) : List RollbackAction :=
  if env.rollbackEnabled = true then
    if env.getStateOk = true then
      if env.otaState = OtaImgState.pendingVerify then
        [RollbackAction.confirmValid]
      else
        []
    else
      []
  else
    []

/-- Helper: once s_retry_num has reached MAXIMUM_RETRY, any further
sequence made only of disconnect events issues no esp_wifi_connect call
and leaves the counter unchanged. -/
theorem runEvents_saturated (s : WifiState) (h : MAXIMUM_RETRY ≤ s.retryNum) :
    ∀ evs : List WifiEvent, (∀ e ∈ evs, e = WifiEvent.staDisconnected) →
      WifiAction.wifiConnect ∉ (runEvents s evs).2 ∧
      (runEvents s evs).1.retryNum = s.retryNum := by
  intro evs
  induction evs with
  | nil =>
      intro _
      simp [runEvents]
  | cons e es ih =>
      intro hall
      have he : e = WifiEvent.staDisconnected := hall e (List.mem_cons_self e es)
      have htl := ih fun x hx => hall x (List.mem_cons_of_mem e hx)
      have hnlt : ¬ s.retryNum < MAXIMUM_RETRY := Nat.not_lt.mpr h
      subst he
      have hstep : event_handler s WifiEvent.staDisconnected
          = (s, [WifiAction.setLed redColor]) := by
        simp [event_handler, hnlt]
      have hrw : runEvents s (WifiEvent.staDisconnected :: es)
          = ((runEvents s es).1, WifiAction.setLed redColor :: (runEvents s es).2) := by
        simp [runEvents, hstep]
      rw [hrw]
      refine ⟨?_, htl.2⟩
      intro hmem
      rcases List.mem_cons.mp hmem with h1 | h2
      · simp at h1
      · exact htl.1 h2

/-- Claim C1: while the retry counter is below MAXIMUM_RETRY, each
disconnect event delivered to the WiFi event handler issues a reconnect
attempt and increments the counter; and once the counter has reached
MAXIMUM_RETRY, no sequence of further disconnect events ever issues a
reconnect attempt again, and the counter stays put — the supervisor is
terminally failed. -/
theorem wifi_retry_cap (s : WifiState) :
    (s.retryNum < MAXIMUM_RETRY →
      WifiAction.wifiConnect ∈ (event_handler s WifiEvent.staDisconnected).2 ∧
      (event_handler s WifiEvent.staDisconnected).1.retryNum = s.retryNum + 1) ∧
    (MAXIMUM_RETRY ≤ s.retryNum →
      ∀ evs : List WifiEvent, (∀ e ∈ evs, e = WifiEvent.staDisconnected) →
        WifiAction.wifiConnect ∉ (runEvents s evs).2 ∧
        (runEvents s evs).1.retryNum = s.retryNum) := by
  constructor
  · intro h
    constructor
    · simp [event_handler, h]
    · simp [event_handler, h]
  · intro h evs hall
    exact runEvents_saturated s h evs hall

/-- Witness for wifi_retry_cap at concrete states: with the counter at 0 a
disconnect reconnects; with the counter at 5, two further disconnects
never reconnect. -/
theorem wifi_retry_cap_witness :
    WifiAction.wifiConnect ∈ (event_handler ⟨0, false⟩ WifiEvent.staDisconnected).2 ∧
    WifiAction.wifiConnect ∉
      (runEvents ⟨5, false⟩ [WifiEvent.staDisconnected, WifiEvent.staDisconnected]).2 :=
  ⟨((wifi_retry_cap ⟨0, false⟩).1 (by decide)).1,
   ((wifi_retry_cap ⟨5, false⟩).2 (by decide)
      [WifiEvent.staDisconnected, WifiEvent.staDisconnected] (by decide)).1⟩

/-- Claim C2: the got-IP branch of the WiFi event handler always resets
the retry counter to 0, and no other branch ever brings a positive
counter back to 0. -/
theorem retry_counter_reset (s : WifiState) :
    (event_handler s WifiEvent.gotIp).1.retryNum = 0 ∧
    (∀ e : WifiEvent, e ≠ WifiEvent.gotIp → 0 < s.retryNum →
      0 < (event_handler s e).1.retryNum) := by
  refine ⟨rfl, ?_⟩
  intro e he hpos
  cases e with
  | staStart => simpa [event_handler] using hpos
  | staDisconnected =>
      by_cases hlt : s.retryNum < MAXIMUM_RETRY
      · simp [event_handler, hlt]
      · simpa [event_handler, hlt] using hpos
  | gotIp => exact absurd rfl he

/-- Witness for retry_counter_reset at the state with counter 3. -/
theorem retry_counter_reset_witness :
    (event_handler ⟨3, false⟩ WifiEvent.gotIp).1.retryNum = 0 ∧
    0 < (event_handler ⟨3, false⟩ WifiEvent.staDisconnected).1.retryNum :=
  ⟨(retry_counter_reset ⟨3, false⟩).1,
   (retry_counter_reset ⟨3, false⟩).2 WifiEvent.staDisconnected (by decide) (by decide)⟩

/-- Claim C3: for any non-null remote descriptor whose version field is
byte-for-byte equal to the running image's, header validation returns
ESP_FAIL whenever the skip-version-check flag is off; the function is
pure, so the outcome is the same on every call with those inputs. -/
theorem validate_rejects_equal_version (cfg : OtaConfig) (running info : EspAppDesc)
    (hskip : cfg.skipVersionCheck = false)
    (hver : info.version = running.version) :
    (ota_validate_image_header cfg running (some info)).1 = EspErr.fail := by
  simp [ota_validate_image_header, hskip, hver]

/-- Witness for validate_rejects_equal_version on the version bytes of
the string 1.0.0. -/
theorem validate_rejects_equal_version_witness :
    (ota_validate_image_header ⟨false, false, 0⟩ ⟨[49, 46, 48, 46, 48], 1⟩
        (some ⟨[49, 46, 48, 46, 48], 1⟩)).1 = EspErr.fail :=
  validate_rejects_equal_version ⟨false, false, 0⟩ ⟨[49, 46, 48, 46, 48], 1⟩
    ⟨[49, 46, 48, 46, 48], 1⟩ rfl rfl

/-- Claim C4: for any non-null remote descriptor whose secure_version is
strictly below the configured anti-rollback floor, header validation
returns ESP_FAIL, whatever the version-equality outcome and whatever the
skip-version-check flag. -/
theorem validate_rejects_downgrade (cfg : OtaConfig) (running info : EspAppDesc)
    (hroll : cfg.antiRollback = true)
    (hlt : info.secure_version < cfg.hwSecVersion) :
    (ota_validate_image_header cfg running (some info)).1 = EspErr.fail := by
  by_cases h1 : cfg.skipVersionCheck = false ∧ info.version = running.version
  · simp [ota_validate_image_header, h1]
  · simp [ota_validate_image_header, h1, hroll, hlt]

/-- Witness for validate_rejects_downgrade with the skip-version-check
flag enabled, showing that flag does not bypass the anti-rollback gate. -/
theorem validate_rejects_downgrade_witness :
    (ota_validate_image_header ⟨true, true, 5⟩ ⟨[49], 9⟩ (some ⟨[50], 3⟩)).1 =
      EspErr.fail :=
  validate_rejects_downgrade ⟨true, true, 5⟩ ⟨[49], 9⟩ ⟨[50], 3⟩ rfl (by decide)

/-- Claim C10: for the null descriptor, header validation returns
ESP_ERR_INVALID_ARG immediately, with an empty read trace: the running
partition description is not read, neither gate is evaluated, and the
null descriptor is never dereferenced. -/
theorem validate_null_immediate (cfg : OtaConfig) (running : EspAppDesc) :
    ota_validate_image_header cfg running none = (EspErr.invalidArg, []) := rfl

/-- Claim C5: whenever the download loop is reached and exits but
is_complete_data_received does not return true, the OTA task shows red,
aborts the open transfer, and never calls finish. -/
theorem incomplete_transfer_no_finish (env : OtaEnv)
    (hb : env.beginErr = EspErr.ok)
    (hd : env.getImgDescErr = EspErr.ok)
    (hv : (ota_validate_image_header env.cfg env.running (some env.appDesc)).1 = EspErr.ok)
    (hc : env.isCompleteData = false) :
    OtaAction.setLedRed ∈ ota_task env ∧
    OtaAction.callAbort ∈ ota_task env ∧
    OtaAction.callFinish ∉ ota_task env := by
  simp [ota_task, hb, hd, hv, hc, otaEndActions]

/-- Witness for incomplete_transfer_no_finish on a concrete session whose
transfer ends incomplete. -/
theorem incomplete_transfer_no_finish_witness :
    OtaAction.callFinish ∉ ota_task
      ⟨⟨false, false, 0⟩, ⟨[49], 0⟩, EspErr.ok, EspErr.ok, ⟨[50], 0⟩,
       EspErr.ok, false, EspErr.ok⟩ :=
  (incomplete_transfer_no_finish
    ⟨⟨false, false, 0⟩, ⟨[49], 0⟩, EspErr.ok, EspErr.ok, ⟨[50], 0⟩,
     EspErr.ok, false, EspErr.ok⟩ rfl rfl (by decide) rfl).2.2

/-- Claim C6 counterexample: when esp_https_ota_begin fails, the OTA task
shows red and deletes itself without ever calling esp_https_ota_abort, so
not every failure path converges on the abort routine. -/
theorem begin_failure_no_abort :
    ota_task ⟨⟨false, false, 0⟩, ⟨[49], 0⟩, EspErr.fail, EspErr.ok, ⟨[50], 0⟩,
        EspErr.ok, true, EspErr.ok⟩ =
      [OtaAction.setLedRed, OtaAction.taskDelete] ∧
    OtaAction.callAbort ∉ ota_task ⟨⟨false, false, 0⟩, ⟨[49], 0⟩, EspErr.fail,
        EspErr.ok, ⟨[50], 0⟩, EspErr.ok, true, EspErr.ok⟩ := by
  decide

/-- Claim C6 amended: the descriptor-fetch failure, header-validation
failure and incomplete-transfer paths all converge on the ota_end abort
routine (abort the open transfer, red status, task deletion); the
Begin-failure path and the finalize-failure path instead set the red
status and delete the task directly, without calling abort. -/
theorem ota_failure_paths (env : OtaEnv) :
    (env.beginErr = EspErr.ok →
      (env.getImgDescErr ≠ EspErr.ok ∨
        (ota_validate_image_header env.cfg env.running (some env.appDesc)).1 ≠ EspErr.ok ∨
        env.isCompleteData = false) →
      OtaAction.callAbort ∈ ota_task env ∧ OtaAction.setLedRed ∈ ota_task env ∧
      OtaAction.taskDelete ∈ ota_task env) ∧
    (env.beginErr ≠ EspErr.ok →
      ota_task env = [OtaAction.setLedRed, OtaAction.taskDelete]) ∧
    (env.beginErr = EspErr.ok → env.getImgDescErr = EspErr.ok →
      (ota_validate_image_header env.cfg env.running (some env.appDesc)).1 = EspErr.ok →
      env.isCompleteData = true →
      ¬(env.performExit = EspErr.ok ∧ env.finishErr = EspErr.ok) →
      ota_task env = [OtaAction.callFinish, OtaAction.setLedRed, OtaAction.taskDelete]) := by
  refine ⟨?_, ?_, ?_⟩
  · intro hb hfail
    by_cases hd : env.getImgDescErr = EspErr.ok
    · by_cases hv : (ota_validate_image_header env.cfg env.running (some env.appDesc)).1
          = EspErr.ok
      · have hc : env.isCompleteData = false := by
          rcases hfail with h | h | h
          · exact absurd hd h
          · exact absurd hv h
          · exact h
        simp [ota_task, hb, hd, hv, hc, otaEndActions]
      · simp [ota_task, hb, hd, hv, otaEndActions]
    · simp [ota_task, hb, hd, otaEndActions]
  · intro hb
    simp [ota_task, hb]
  · intro hb hd hv hc hnf
    simp [ota_task, hb, hd, hv, hc, hnf]

/-- Witness for ota_failure_paths: on a concrete session whose descriptor
fetch fails, the abort routine runs. -/
theorem ota_failure_paths_witness :
    OtaAction.callAbort ∈ ota_task
      ⟨⟨false, false, 0⟩, ⟨[49], 0⟩, EspErr.ok, EspErr.fail, ⟨[50], 0⟩,
       EspErr.ok, true, EspErr.ok⟩ :=
  ((ota_failure_paths
      ⟨⟨false, false, 0⟩, ⟨[49], 0⟩, EspErr.ok, EspErr.fail, ⟨[50], 0⟩,
       EspErr.ok, true, EspErr.ok⟩).1 rfl (Or.inl (by decide))).1

/-- Claim C7: the OTA task reaches the restart-into-new-image action only
when Begin succeeded, the descriptor fetch succeeded, header validation
passed both gates, the download loop exited cleanly, the complete-data
check returned true, and finish succeeded; in particular a session in
which a descriptor gate failed never reaches success. -/
theorem success_requires_all_gates (env : OtaEnv)
    (h : OtaAction.restart ∈ ota_task env) :
    env.beginErr = EspErr.ok ∧ env.getImgDescErr = EspErr.ok ∧
    (ota_validate_image_header env.cfg env.running (some env.appDesc)).1 = EspErr.ok ∧
    env.isCompleteData = true ∧ env.performExit = EspErr.ok ∧
    env.finishErr = EspErr.ok := by
  unfold ota_task at h
  split_ifs at h with h1 h2 h3 h4 h5
  · exact absurd h (by decide)
  · exact absurd h (by decide)
  · exact absurd h (by decide)
  · exact absurd h (by decide)
  · exact ⟨not_not.mp h1, not_not.mp h2, not_not.mp h3, not_not.mp h4, h5.1, h5.2⟩
  · exact absurd h (by decide)

/-- Witness for success_requires_all_gates on a concrete fully successful
session. -/
theorem success_requires_all_gates_witness :
    (ota_validate_image_header ⟨false, false, 0⟩ ⟨[49], 0⟩ (some ⟨[50], 0⟩)).1 =
      EspErr.ok :=
  (success_requires_all_gates
    ⟨⟨false, false, 0⟩, ⟨[49], 0⟩, EspErr.ok, EspErr.ok, ⟨[50], 0⟩,
     EspErr.ok, true, EspErr.ok⟩ (by decide)).2.2.1

/-- Claim C8: in the color table of led_control.h and led_strip_custom.c
the orange (connecting/retrying) triple is byte-identical to the green
(success) triple, (0, 245, 210), even though red, green and blue are
pairwise distinct — the code shows the same color for retrying and for
success, contradicting both the spec and the code's own comments that
label ORANGE as the distinct reconnection color. -/
theorem orange_equals_green :
    orangeColor = greenColor ∧
    redColor ≠ greenColor ∧ blueColor ≠ greenColor ∧ redColor ≠ blueColor := by
  decide

/-- Claim C9: with rollback support compiled in and the partition state
read successfully, the rollback guard calls the confirmation operation
exactly once when the state reads PENDING_VERIFY and never for any other
state; and no outcome of the confirmation call (including failure) ever
triggers a device restart. -/
theorem rollback_confirm_once (env : RollbackEnv) :
    (env.rollbackEnabled = true → env.getStateOk = true →
      ((env.otaState = OtaImgState.pendingVerify →
          List.count RollbackAction.confirmValid (rollback_guard env) = 1) ∧
        (env.otaState ≠ OtaImgState.pendingVerify →
          List.count RollbackAction.confirmValid (rollback_guard env) = 0))) ∧
    RollbackAction.restartDevice ∉ rollback_guard env := by
  obtain ⟨en, gs, st, co⟩ := env
  cases en <;> cases gs <;> cases st <;> cases co <;> decide

/-- Witness for rollback_confirm_once on a boot in PENDING_VERIFY whose
confirmation call fails: still exactly one confirmation call and no
restart. -/
theorem rollback_confirm_once_witness :
    List.count RollbackAction.confirmValid
        (rollback_guard ⟨true, true, OtaImgState.pendingVerify, false⟩) = 1 ∧
    RollbackAction.restartDevice ∉
      rollback_guard ⟨true, true, OtaImgState.pendingVerify, false⟩ :=
  ⟨(((rollback_confirm_once ⟨true, true, OtaImgState.pendingVerify, false⟩).1
      rfl rfl).1) rfl,
   (rollback_confirm_once ⟨true, true, OtaImgState.pendingVerify, false⟩).2⟩

end LedStrip
